import Mathlib

/-!
Verification of the ResumeSense Resume Analysis Engine specification.

This file is a shallow embedding, in Lean 4, of the core analysis code of
the repository (`backend/nlp/jd_matcher.py`, `backend/nlp/ats_checker.py`,
`backend/nlp/power_verbs.py`, `backend/nlp/resume_insights.py`,
`backend/ml/feature_extractor.py`, `backend/ml/resume_scorer.py`).

Modelling conventions:
* Python strings are Lean `String`s; character classes follow the ASCII
  reading of Python's regex classes (`\w` = letters, digits, underscore).
* Python floats are modelled as exact rationals (`ℚ`); `round(x, 2)` is
  modelled by `round2`, round-half-to-even on the centesimal grid, which is
  Python's rounding rule on exact values.
* Python regex searches are compiled, pattern by pattern, into executable
  Lean scanners with the same match-existence semantics; each scanner is
  annotated with the regex it embeds.
* Python `set`s of strings become `Finset String`; scores only ever use
  cardinalities and membership, which are iteration-order independent.
-/

namespace ResumeSense

/-- Python regex `\w` over ASCII: letters, digits, underscore. -/
def wordChar (c : Char) : Bool :=
  c.isAlphanum || c = '_'

/-- Python regex `\s` over ASCII: space, tab, newline, CR, FF, VT. -/
def pySpace (c : Char) : Bool :=
  c = ' ' || c = '\t' || c = '\n' || c = '\x0d' || c = '\x0c' || c = '\x0b'

/-- ASCII uppercase letter (regex class `[A-Z]`). -/
def upperAscii (c : Char) : Bool :=
  'A' ≤ c && c ≤ 'Z'

/-- ASCII lowercase letter test, used for Python `str.isupper` style checks. -/
def lowerAscii (c : Char) : Bool :=
  'a' ≤ c && c ≤ 'z'

/-- Python `str.lower()` (ASCII). -/
def pyLower (s : String) : String :=
  ⟨s.toList.map Char.toLower⟩

/-- Python `str.strip()`: drop whitespace at both ends. -/
def stripChars (l : List Char) : List Char :=
  ((l.dropWhile pySpace).reverse.dropWhile pySpace).reverse

/-- Python `str.strip()` on strings. -/
def pyStrip (s : String) : String :=
  ⟨stripChars s.toList⟩

/-- Split a character list on a separator character; keeps empty parts,
as Python `str.split(sep)` does. -/
def splitChar (sep : Char) : List Char → List (List Char)
  | [] => [[]]
  | c :: cs =>
    match splitChar sep cs with
    | [] => if c = sep then [[], []] else [[c]]
    | h :: t => if c = sep then [] :: h :: t else (c :: h) :: t

/-- Python `text.split(sep)` for a one-character separator. -/
def pySplitOn (sep : Char) (s : String) : List String :=
  (splitChar sep s.toList).map fun l => ⟨l⟩

/-- Maximal runs of characters satisfying `p` (used for `\b`-delimited
word extraction: a `\b…\b` match of word characters is a maximal run). -/
def runsBy (p : Char → Bool) : List Char → List (List Char)
  | [] => []
  | c :: cs =>
    if p c then
      match runsBy p cs with
      | [] => [[c]]
      | h :: t =>
        match cs with
        | [] => [[c]]
        | d :: _ => if p d then (c :: h) :: t else [c] :: h :: t
    else runsBy p cs

/-- Maximal runs of `\w` characters: exactly the matches of `\b\w+\b`. -/
def wordRuns (l : List Char) : List (List Char) :=
  runsBy wordChar l

/-- Python `needle in hay` for lists. -/
def listContainsSub (needle hay : List Char) : Bool :=
  needle.isPrefixOf hay ||
    match hay with
    | [] => false
    | _ :: t => listContainsSub needle t

/-- Python substring containment `needle in hay` on strings. -/
def strContains (hay needle : String) : Bool :=
  listContainsSub needle.toList hay.toList

/-- Python `s.startswith(pre)` (list-based, so that it evaluates by
kernel reduction). -/
def strStartsWith (s pre : String) : Bool :=
  pre.toList.isPrefixOf s.toList

/-- Python `str.split()` with no argument: maximal non-whitespace runs. -/
def pySplitWs (s : String) : List String :=
  (runsBy (fun c => ¬ pySpace c) s.toList).map fun l => ⟨l⟩

/-- Python `round(q, 2)` on exact values: round half to even on the
centesimal grid. -/
def round2 (q : ℚ) : ℚ :=
  if q * 100 - ((⌊q * 100⌋ : ℤ) : ℚ) < 1/2 then ((⌊q * 100⌋ : ℤ) : ℚ) / 100
  else if 1/2 < q * 100 - ((⌊q * 100⌋ : ℤ) : ℚ) then (((⌊q * 100⌋ : ℤ) : ℚ) + 1) / 100
  else if ⌊q * 100⌋ % 2 = 0 then ((⌊q * 100⌋ : ℤ) : ℚ) / 100
  else (((⌊q * 100⌋ : ℤ) : ℚ) + 1) / 100

/-- Count of maximal runs of characters satisfying `p` (e.g. the number of
`re.findall` matches of a `p⁺` pattern). -/
def countRuns (p : Char → Bool) : List Char → ℕ
  | [] => 0
  | c :: cs =>
    match cs with
    | [] => if p c then 1 else 0
    | d :: _ =>
      if p c && ¬ p d then 1 + countRuns p cs
      else countRuns p cs

end ResumeSense

namespace ResumeSense.JDMatcher

/-- Models `JDMatcher.SCIENTIFIC_DOMAINS` from `backend/nlp/jd_matcher.py`
(a Python set literal; the source lists `algorithm` twice, which a set
collapses — `toFinset` does the same here). -/
def SCIENTIFIC_DOMAINS : List String :=
  ["python", "java", "javascript", "typescript", "c++", "cpp", "c#", "csharp",
   "go", "golang", "rust", "swift", "kotlin", "scala", "r", "matlab", "perl",
   "ruby", "php", "sql", "html", "css", "xml", "json", "yaml",
   "react", "angular", "vue", "django", "flask", "spring", "express", "node",
   "tensorflow", "pytorch", "keras", "scikit", "pandas", "numpy", "matplotlib",
   "aws", "azure", "gcp", "docker", "kubernetes", "jenkins", "git", "github",
   "gitlab", "ci/cd", "microservices", "api", "rest", "graphql", "mongodb",
   "postgresql", "mysql", "redis", "elasticsearch", "kafka", "rabbitmq",
   "machine learning", "deep learning", "neural network", "nlp", "computer vision",
   "data science", "statistics", "algorithm", "optimization", "regression",
   "classification", "clustering", "reinforcement learning", "ai", "artificial intelligence",
   "linux", "unix", "bash", "shell", "agile", "scrum", "devops", "cloud",
   "security", "encryption", "blockchain", "cryptography", "networking",
   "research", "publication", "thesis", "dissertation", "peer review", "journal",
   "conference", "patent", "algorithm", "methodology", "hypothesis", "experiment"]

/-- Stop words of `JDMatcher._extract_keywords`. -/
def STOP_WORDS : List String :=
  ["the", "a", "an", "and", "or", "but", "in", "on", "at", "to", "for",
   "of", "with", "by", "from", "as", "is", "was", "are", "were", "been",
   "be", "have", "has", "had", "do", "does", "did", "will", "would",
   "should", "could", "may", "might", "must", "can", "this", "that",
   "these", "those", "i", "you", "he", "she", "it", "we", "they",
   "what", "which", "who", "when", "where", "why", "how", "all", "each",
   "every", "both", "few", "more", "most", "other", "some", "such",
   "only", "own", "same", "so", "than", "too", "very", "just", "now",
   "work", "job", "position", "role", "team", "company", "years", "experience"]

/-- Compound technical terms of `JDMatcher._extract_scientific_keywords`. -/
def COMPOUND_TERMS : List String :=
  ["machine learning", "deep learning", "neural network", "natural language",
   "computer vision", "data science", "artificial intelligence", "reinforcement learning",
   "supervised learning", "unsupervised learning", "transfer learning", "feature engineering",
   "ci/cd", "devops", "microservices", "rest api", "graphql", "object oriented",
   "functional programming", "test driven", "agile methodology", "scrum master"]

/-- File extensions of the technology pattern
`\b(\w+)\.(js|py|java|cpp|html|css|sql|json|xml|ts|tsx|jsx)\b`. -/
def TECH_EXTS : List String :=
  ["js", "py", "java", "cpp", "html", "css", "sql", "json", "xml", "ts", "tsx", "jsx"]

/-- Models `JDMatcher._tokenize`: `re.findall(r'\b\w+\b', text.lower())`, i.e. the
maximal word-character runs of the lowercased text. -/
def tokenize (text : String) : List String :=
  (wordRuns (pyLower text).toList).map fun l => ⟨l⟩

/-- Bases of `re.findall(r'\b(\w+)\.(ext|…)\b', text_lower)`: a word run,
one dot, then a run equal to a known extension; `findall` resumes after
each match, so a consumed extension is not reused as a base. `prevWord`
tracks whether the previous character is a word character (for `\b`). -/
def techScan (fuel : ℕ) (prevWord : Bool) (l : List Char) : List String :=
  match fuel with
  | 0 => []
  | fuel + 1 =>
    match l with
    | [] => []
    | c :: cs =>
      if wordChar c && ¬ prevWord then
        let run := (c :: cs).takeWhile wordChar
        let rest := (c :: cs).dropWhile wordChar
        match rest with
        | '.' :: rest2 =>
          let run2 := rest2.takeWhile wordChar
          let rest3 := rest2.dropWhile wordChar
          if run2 ≠ [] && TECH_EXTS.contains (⟨run2⟩ : String) then
            (⟨run⟩ : String) :: techScan fuel true rest3
          else
            techScan fuel true rest
        | _ => techScan fuel true rest
      else
        techScan fuel (wordChar c) cs

/-- Models `JDMatcher._extract_scientific_keywords`: taxonomy substring matches,
lowercased 2–5 letter acronyms (`\b[A-Z]{2,5}\b` matches are exactly the
maximal word runs made of 2–5 uppercase letters), technology-pattern base
tokens, and underscore-joined compound terms. The Python function builds a
set by union, modelled by `List.toFinset` of the concatenation. -/
def scientificKeywords (text : String) : Finset String :=
  let textLower := pyLower text
  let domains := SCIENTIFIC_DOMAINS.filter fun d => strContains textLower d
  let acronyms := ((wordRuns text.toList).filter fun r =>
      decide (2 ≤ r.length) && decide (r.length ≤ 5) && r.all upperAscii).map
      fun r => (⟨r.map Char.toLower⟩ : String)
  let techs := techScan (textLower.toList.length + 1) false textLower.toList
  let compounds := (COMPOUND_TERMS.filter fun t => strContains textLower t).map
      fun t => (⟨t.toList.map fun c => if c = ' ' then '_' else c⟩ : String)
  (domains ++ acronyms ++ techs ++ compounds).toFinset

/-- Models `JDMatcher._extract_keywords` applied to `JDMatcher._tokenize text`:
tokens that are not stop words, have length > 2, and are not taxonomy
members. -/
def generalKeywords (text : String) : Finset String :=
  ((tokenize text).filter fun t =>
    !STOP_WORDS.contains t && decide (2 < t.length) &&
      !SCIENTIFIC_DOMAINS.contains t).toFinset

/-- The fields of the `JDMatcher.compute_match_score` result dictionary that
the specification's claims mention.  `common_keywords_len` is the length of
the `common_keywords` display list, `list(common_scientific) + [kw for kw in
common_keywords if kw not in common_scientific]` truncated to 20 entries —
the length is iteration-order independent. -/
structure MatchResult where
  match_score : ℚ
  common_keywords_len : ℕ
  jd_keyword_count : ℕ
  resume_keyword_count : ℕ
  scientific_keywords_matched : ℕ
  scientific_keywords_total : ℕ
  deriving Repr, DecidableEq

/-- Models `JDMatcher.compute_match_score` (numeric part). -/
def computeMatchScore (resume_text jd_text : String) : MatchResult :=
  let resume_scientific := scientificKeywords resume_text
  let jd_scientific := scientificKeywords jd_text
  let resume_keywords := generalKeywords resume_text
  let jd_keywords := generalKeywords jd_text
  let common_scientific := resume_scientific ∩ jd_scientific
  let total_jd_scientific := jd_scientific.card
  let common_keywords := resume_keywords ∩ jd_keywords
  let total_jd_keywords := jd_keywords.card
  let raw : ℚ :=
    if total_jd_scientific = 0 ∧ total_jd_keywords = 0 then 0
    else
      let scientific_score : ℚ :=
        if 0 < total_jd_scientific then
          ((common_scientific.card : ℚ) / (total_jd_scientific : ℚ)) * 100
        else 0
      let general_score : ℚ :=
        if 0 < total_jd_keywords then
          ((common_keywords.card : ℚ) / (total_jd_keywords : ℚ)) * 100
        else 0
      scientific_score * 0.7 + general_score * 0.3
  let match_score := min 100 (max 0 raw)
  { match_score := round2 match_score
    common_keywords_len :=
      min 20 (common_scientific.card + (common_keywords \ common_scientific).card)
    jd_keyword_count := total_jd_keywords + total_jd_scientific
    resume_keyword_count := resume_keywords.card + resume_scientific.card
    scientific_keywords_matched := common_scientific.card
    scientific_keywords_total := total_jd_scientific }

end ResumeSense.JDMatcher

namespace ResumeSense.ATSChecker

/-- Word-ness of an optional previous character (start of string counts as
non-word), for `\b` boundary tests. -/
def isWordOpt : Option Char → Bool
  | none => false
  | some c => ResumeSense.wordChar c

/-- All ways of consuming one or more characters satisfying `p` from the
front of `l`; each result is the last consumed character paired with the
remaining suffix.  Models a backtracking regex `p+`. -/
def afterPlus (p : Char → Bool) : List Char → List (Char × List Char)
  | [] => []
  | c :: cs => if p c then (c, cs) :: afterPlus p cs else []

/-- Models `\b` immediately after a just-consumed character `last`, looking at the
rest of the input. -/
def wordBoundaryAfter (last : Char) (rest : List Char) : Bool :=
  match rest with
  | [] => ResumeSense.wordChar last
  | c :: _ => decide (ResumeSense.wordChar last ≠ ResumeSense.wordChar c)

/-- Regex class `[A-Za-z0-9._%+-]` (email local part). -/
def emailLocalChar (c : Char) : Bool :=
  c.isAlphanum || c = '.' || c = '_' || c = '%' || c = '+' || c = '-'

/-- Regex class `[A-Za-z0-9.-]` (email domain part). -/
def emailDomainChar (c : Char) : Bool :=
  c.isAlphanum || c = '.' || c = '-'

/-- Regex class `[A-Z|a-z]` — note the literal `|` inside the class in the
source pattern. -/
def emailTldChar (c : Char) : Bool :=
  c.isAlpha || c = '|'

/-- A match of `[A-Za-z0-9._%+-]+@[A-Za-z0-9.-]+\.[A-Z|a-z]{2,}\b`
starting exactly at the beginning of `l`. -/
def emailHere (l : List Char) : Bool :=
  (afterPlus emailLocalChar l).any fun pr1 =>
    match pr1.2 with
    | '@' :: r2 =>
      (afterPlus emailDomainChar r2).any fun pr2 =>
        match pr2.2 with
        | '.' :: r4 =>
          (afterPlus emailTldChar r4).any fun pr3 =>
            decide (2 ≤ r4.length - pr3.2.length) && wordBoundaryAfter pr3.1 pr3.2
        | _ => false
    | _ => false

/-- Models `re.search` for a pattern beginning with `\b`: try every suffix, with
the boundary test against the preceding character. -/
def searchBWith (here : List Char → Bool) : Option Char → List Char → Bool
  | _, [] => false
  | prev, c :: cs =>
    (decide (isWordOpt prev ≠ ResumeSense.wordChar c) && here (c :: cs)) ||
      searchBWith here (some c) cs

/-- Models `re.search` for a pattern with no leading boundary assertion. -/
def searchWith (here : List Char → Bool) : List Char → Bool
  | [] => false
  | c :: cs => here (c :: cs) || searchWith here cs

/-- Models `bool(re.search(r'\b[A-Za-z0-9._%+-]+@[A-Za-z0-9.-]+\.[A-Z|a-z]{2,}\b', text))`
from `ATSChecker._check_contact_info` (and reused verbatim in
`FeatureExtractor.extract_features` for `has_email`). -/
def hasEmail (s : String) : Bool :=
  searchBWith emailHere none s.toList

/-- Consume exactly `n` characters satisfying `p`. -/
def consumeExact (p : Char → Bool) : ℕ → List Char → Option (List Char)
  | 0, l => some l
  | _ + 1, [] => none
  | n + 1, c :: cs => if p c then consumeExact p n cs else none

/-- Both outcomes of an optional single-character consumption `p?`. -/
def optConsume (p : Char → Bool) (l : List Char) : List (List Char) :=
  l :: (match l with
        | c :: cs => if p c then [cs] else []
        | [] => [])

/-- All suffixes after consuming between `lo` and `hi` characters
satisfying `p` (regex `p{lo,hi}` with backtracking). -/
def consumeBetween (p : Char → Bool) : ℕ → ℕ → List Char → List (List Char)
  | lo, hi, l =>
    (if lo = 0 then [l] else []) ++
      match hi, l with
      | h + 1, c :: cs => if p c then consumeBetween p (lo - 1) h cs else []
      | _, _ => []

/-- Regex class `[-.]`. -/
def sepDash (c : Char) : Bool := c = '-' || c = '.'

/-- Regex class `[-.\s]`. -/
def sepDashWs (c : Char) : Bool := c = '-' || c = '.' || ResumeSense.pySpace c

/-- A match of `\d{3}[-.]?\d{3}[-.]?\d{4}\b` starting at the head of `l`
(US phone format; first pattern of `_check_contact_info`). -/
def phone1Here (l : List Char) : Bool :=
  match consumeExact Char.isDigit 3 l with
  | none => false
  | some r1 =>
    (optConsume sepDash r1).any fun r2 =>
      match consumeExact Char.isDigit 3 r2 with
      | none => false
      | some r3 =>
        (optConsume sepDash r3).any fun r4 =>
          match consumeExact Char.isDigit 4 r4 with
          | none => false
          | some r5 =>
            match r5 with
            | [] => true
            | c :: _ => ¬ ResumeSense.wordChar c

/-- A match of `\(\d{3}\)\s?\d{3}[-.]?\d{4}` starting at the head of `l`. -/
def phone2Here (l : List Char) : Bool :=
  match l with
  | '(' :: r1 =>
    match consumeExact Char.isDigit 3 r1 with
    | none => false
    | some (')' :: r2) =>
      (optConsume ResumeSense.pySpace r2).any fun r3 =>
        match consumeExact Char.isDigit 3 r3 with
        | none => false
        | some r4 =>
          (optConsume sepDash r4).any fun r5 =>
            (consumeExact Char.isDigit 4 r5).isSome
    | some _ => false
  | _ => false

/-- A match of `\+\d{1,3}[-.\s]?\d{1,4}[-.\s]?\d{1,4}[-.\s]?\d{1,9}`
starting at the head of `l` (international format). -/
def phone3Here (l : List Char) : Bool :=
  match l with
  | '+' :: r1 =>
    (consumeBetween Char.isDigit 1 3 r1).any fun r2 =>
      (optConsume sepDashWs r2).any fun r3 =>
        (consumeBetween Char.isDigit 1 4 r3).any fun r4 =>
          (optConsume sepDashWs r4).any fun r5 =>
            (consumeBetween Char.isDigit 1 4 r5).any fun r6 =>
              (optConsume sepDashWs r6).any fun r7 =>
                ¬ (consumeBetween Char.isDigit 1 9 r7).isEmpty
  | _ => false

/-- Models `has_phone` of `ATSChecker._check_contact_info`: any of the three
phone patterns matches somewhere. -/
def hasPhone (s : String) : Bool :=
  searchBWith phone1Here none s.toList ||
    searchWith phone2Here s.toList ||
    searchWith phone3Here s.toList

/-- Models `has_phone` of `FeatureExtractor.extract_features`: only the first
(US) pattern `\b\d{3}[-.]?\d{3}[-.]?\d{4}\b`. -/
def hasPhoneUS (s : String) : Bool :=
  searchBWith phone1Here none s.toList

/-- Address keywords of `_check_contact_info`. -/
def ADDRESS_KEYWORDS : List String :=
  ["street", "avenue", "road", "drive", "lane", "city", "state", "zip"]

/-- Models `contact_check` dictionary of `ATSChecker._check_contact_info`. -/
structure ContactCheck where
  has_email : Bool
  has_phone : Bool
  has_address : Bool
  complete : Bool
  deriving Repr, DecidableEq

/-- Models `ATSChecker._check_contact_info`. -/
def checkContactInfo (text : String) : ContactCheck :=
  let e := hasEmail text
  let p := hasPhone text
  { has_email := e
    has_phone := p
    has_address := ADDRESS_KEYWORDS.any fun kw => ResumeSense.strContains (ResumeSense.pyLower text) kw
    complete := e && p }

/-- Models `section_checks` dictionary of `ATSChecker._check_sections`
(insertion order: education, experience, skills, contact, summary). -/
structure SectionChecks where
  education : Bool
  experience : Bool
  skills : Bool
  contact : Bool
  summary : Bool
  deriving Repr, DecidableEq

/-- The values of the section dictionary, in insertion order
(`section_checks.values()`). -/
def sectionValues (s : SectionChecks) : List Bool :=
  [s.education, s.experience, s.skills, s.contact, s.summary]

/-- Models `ATSChecker._check_sections` (input is the lowercased resume text). -/
def checkSections (text : String) : SectionChecks :=
  let has := fun (kws : List String) => kws.any fun kw => ResumeSense.strContains text kw
  { education := has ["education", "academic", "degree", "university", "college", "school"]
    experience := has ["experience", "employment", "work history", "professional", "career"]
    skills := has ["skills", "technical skills", "competencies", "proficiencies"]
    contact := has ["email", "phone", "address", "contact"]
    summary := has ["summary", "objective", "profile", "about"] }

/-- Models `formatting_checks` dictionary of `ATSChecker._check_formatting`. -/
structure FormattingChecks where
  has_tables : Bool
  excessive_formatting : Bool
  has_headers_footers : Bool
  has_bullets : Bool
  deriving Repr, DecidableEq

/-- Models `bool(re.search(r' {3,}|\t', text))`: three consecutive spaces or a
tab somewhere. -/
def hasTablesScan : List Char → Bool
  | ' ' :: ' ' :: ' ' :: _ => true
  | '\t' :: _ => true
  | _ :: cs => hasTablesScan cs
  | [] => false

/-- Models `bool(re.search(r'[â€¢\-\*]\s', text))`.  The source file's class
literally contains the three characters `â`, `€`, `¢` (a mis-decoded
bullet), plus escaped `-` and `*`. -/
def bulletScan : List Char → Bool
  | c :: d :: rest =>
    ((c = 'â' || c = '€' || c = '¢' || c = '-' || c = '*') && ResumeSense.pySpace d) ||
      bulletScan (d :: rest)
  | _ => false

/-- Models `ATSChecker._check_formatting`. -/
def checkFormatting (text : String) : FormattingChecks :=
  let l := text.toList
  let special := (l.filter fun c => ¬ ResumeSense.wordChar c && ¬ ResumeSense.pySpace c).length
  let lines := ResumeSense.pySplitOn '\n' text
  let hf :=
    if 10 < lines.length then
      let header_lines := lines.take 3
      let footer_lines := lines.drop (lines.length - 3)
      header_lines.any fun line =>
        footer_lines.contains (ResumeSense.pyStrip line) ||
          header_lines.contains (ResumeSense.pyStrip line)
    else false
  { has_tables := hasTablesScan l
    excessive_formatting := decide (((special : ℚ) / ((max text.length 1 : ℕ) : ℚ)) > 0.3)
    has_headers_footers := hf
    has_bullets := bulletScan l }

/-- Models `ATSChecker._calculate_ats_score`, step for step. -/
def calculateAtsScore (s : SectionChecks) (c : ContactCheck) (f : FormattingChecks) : ℚ :=
  let vals := sectionValues s
  let section_score : ℚ := ((vals.countP (fun b => b) : ℕ) : ℚ) / ((vals.length : ℕ) : ℚ) * 40
  let score : ℚ := 0 + section_score
  let contact_score : ℚ :=
    if c.complete then 30
    else if c.has_email || c.has_phone then 15
    else 0
  let score := score + contact_score
  let f0 : ℚ := 30
  let f1 := if f.has_tables then f0 - 10 else f0
  let f2 := if f.excessive_formatting then f1 - 10 else f1
  let f3 := if f.has_headers_footers then f2 - 5 else f2
  let f4 := if ¬ f.has_bullets then f3 - 5 else f3
  let formatting_score := max 0 f4
  let score := score + formatting_score
  ResumeSense.round2 (min 100 (max 0 score))

/-- The parts of the `ATSChecker.check_compliance` report used by the
claims (the issue and recommendation message lists are presentation-only
and are not modelled). -/
structure ComplianceResult where
  ats_score : ℚ
  section_checks : SectionChecks
  contact_check : ContactCheck
  formatting_checks : FormattingChecks
  deriving Repr, DecidableEq

/-- Models `ATSChecker.check_compliance`. -/
def checkCompliance (resume_text : String) : ComplianceResult :=
  let text_lower := ResumeSense.pyLower resume_text
  let section_checks := checkSections text_lower
  let contact_check := checkContactInfo resume_text
  let formatting_checks := checkFormatting resume_text
  { ats_score := calculateAtsScore section_checks contact_check formatting_checks
    section_checks := section_checks
    contact_check := contact_check
    formatting_checks := formatting_checks }

end ResumeSense.ATSChecker

namespace ResumeSense.PowerVerbSuggester

/-- The distinct keys of `PowerVerbSuggester.VERB_REPLACEMENTS` (the Python
dict literal repeats some keys; a dict keeps one entry per key). -/
def WEAK_VERBS : List String :=
  ["did", "made", "got", "helped", "worked", "used", "fixed", "changed",
   "started", "managed", "led", "improved", "increased", "decreased",
   "created", "wrote", "talked", "showed", "found", "gave", "took", "went",
   "saw", "tried", "kept", "put", "set", "ran", "looked", "asked", "told",
   "met", "left", "came", "said", "thought", "knew", "learned", "taught",
   "built", "sold", "bought", "sent", "received", "opened", "closed",
   "moved", "stayed", "turned", "pulled", "pushed", "held", "brought",
   "called", "played", "read", "heard", "felt", "seemed", "became",
   "began", "ended", "happened", "mattered", "wanted", "needed"]

/-- The fixed strong-verb list of `get_power_verb_stats`. -/
def STRONG_VERBS : List String :=
  ["achieved", "accomplished", "executed", "implemented", "developed",
   "created", "designed", "built", "established", "launched",
   "managed", "led", "directed", "oversaw", "coordinated",
   "improved", "enhanced", "optimized", "increased", "boosted",
   "reduced", "minimized", "resolved", "solved", "delivered",
   "produced", "generated", "secured", "obtained", "acquired"]

/-- Statistics of `PowerVerbSuggester.get_power_verb_stats` used by the
feature extractor.  `len(re.findall(r'\bverb\b', text_lower))` for an
all-letter verb counts the maximal word runs equal to the verb. -/
structure PowerVerbStats where
  weak_verb_count : ℕ
  strong_verb_count : ℕ
  power_verb_score : ℚ
  deriving Repr, DecidableEq

/-- Models `PowerVerbSuggester.get_power_verb_stats` (numeric part). -/
def getPowerVerbStats (resume_text : String) : PowerVerbStats :=
  let toks := (ResumeSense.wordRuns (ResumeSense.pyLower resume_text).toList).map
      fun l => (⟨l⟩ : String)
  let weak_verb_count := (WEAK_VERBS.map fun v => toks.count v).sum
  let strong_verb_count := (STRONG_VERBS.map fun v => toks.count v).sum
  { weak_verb_count := weak_verb_count
    strong_verb_count := strong_verb_count
    power_verb_score :=
      ResumeSense.round2
        (((strong_verb_count : ℚ) / ((max (weak_verb_count + strong_verb_count) 1 : ℕ) : ℚ)) * 100) }

end ResumeSense.PowerVerbSuggester

namespace ResumeSense.FeatureExtractor

/-- Stop words of `FeatureExtractor._calculate_keyword_density` (a smaller
list than the JD matcher's). -/
def FE_STOP_WORDS : List String :=
  ["the", "a", "an", "and", "or", "but", "in", "on", "at", "to", "for",
   "of", "with", "by", "from", "as", "is", "was", "are", "were", "been",
   "be", "have", "has", "had", "do", "does", "did", "will", "would",
   "should", "could", "may", "might", "must", "can"]

/-- Models `FeatureExtractor._calculate_keyword_density`: meaningful words (not a
stop word, length > 2) over total words; 0.0 on empty input. -/
def keywordDensity (text : String) : ℚ :=
  let words := ResumeSense.pySplitWs (ResumeSense.pyLower text)
  if words.length = 0 then 0
  else
    ((words.filter fun w =>
        ¬ FE_STOP_WORDS.contains w && decide (2 < w.length)).length : ℚ) /
      (words.length : ℚ)

/-- Sentence separator class of `re.split(r'[.!?]+', resume_text)`. -/
def sentenceSep (c : Char) : Bool := c = '.' || c = '!' || c = '?'

/-- Models `len(re.findall(r'\d+%', text))`: each match is a digit run directly
followed by `%`; counting those is counting (digit, `%`) adjacent pairs. -/
def pctCount : List Char → ℕ
  | c :: '%' :: rest => if c.isDigit then 1 + pctCount rest else pctCount ('%' :: rest)
  | _ :: cs => pctCount cs
  | [] => 0

/-- Achievement keywords of `extract_features`. -/
def ACHIEVEMENT_KEYWORDS : List String :=
  ["increased", "decreased", "improved", "reduced", "achieved", "accomplished"]

/-- The 22-entry feature dictionary of `FeatureExtractor.extract_features`,
as a record (all values as exact rationals). -/
structure Features where
  text_length : ℚ
  word_count : ℚ
  sentence_count : ℚ
  keyword_density : ℚ
  action_verbs_count : ℚ
  weak_verbs_count : ℚ
  power_verb_frac : ℚ   -- source key: `power_verb_ratio`
  has_numbers : ℚ
  numbers_count : ℚ
  percentage_mentions : ℚ
  ats_score : ℚ
  has_education : ℚ
  has_experience : ℚ
  has_skills : ℚ
  has_contact : ℚ
  has_bullets : ℚ
  section_count : ℚ
  jd_match_score : ℚ
  common_keywords : ℚ
  has_email : ℚ
  has_phone : ℚ
  achievement_keywords : ℚ

/-- Models `FeatureExtractor.extract_features`.  The Python guard `if jd_text:`
is string truthiness, i.e. `jd_text ≠ ""`. -/
def extractFeatures (resume_text : String) (jd_text : String := "") : Features :=
  let verb_stats := ResumeSense.PowerVerbSuggester.getPowerVerbStats resume_text
  let ats_result := ResumeSense.ATSChecker.checkCompliance resume_text
  let jdPair : ℚ × ℚ :=
    if jd_text = "" then (0, 0)
    else
      let match_result := ResumeSense.JDMatcher.computeMatchScore resume_text jd_text
      (match_result.match_score / 100, (match_result.common_keywords_len : ℚ))
  let lowerText := ResumeSense.pyLower resume_text
  { text_length := (resume_text.length : ℚ)
    word_count := ((ResumeSense.pySplitWs resume_text).length : ℚ)
    sentence_count := ((ResumeSense.countRuns sentenceSep resume_text.toList + 1 : ℕ) : ℚ)
    keyword_density := keywordDensity resume_text
    action_verbs_count := (verb_stats.strong_verb_count : ℚ)
    weak_verbs_count := (verb_stats.weak_verb_count : ℚ)
    power_verb_frac := verb_stats.power_verb_score / 100
    has_numbers := if resume_text.toList.any Char.isDigit then 1 else 0
    numbers_count := ((ResumeSense.countRuns Char.isDigit resume_text.toList : ℕ) : ℚ)
    percentage_mentions := ((pctCount resume_text.toList : ℕ) : ℚ)
    ats_score := ats_result.ats_score / 100
    has_education := if ats_result.section_checks.education then 1 else 0
    has_experience := if ats_result.section_checks.experience then 1 else 0
    has_skills := if ats_result.section_checks.skills then 1 else 0
    has_contact := if ats_result.contact_check.complete then 1 else 0
    has_bullets := if ats_result.formatting_checks.has_bullets then 1 else 0
    section_count :=
      (((ResumeSense.ATSChecker.sectionValues ats_result.section_checks).countP
          (fun b => b) : ℕ) : ℚ)
    jd_match_score := jdPair.1
    common_keywords := jdPair.2
    has_email := if ResumeSense.ATSChecker.hasEmail resume_text then 1 else 0
    has_phone := if ResumeSense.ATSChecker.hasPhoneUS resume_text then 1 else 0
    achievement_keywords :=
      ((ACHIEVEMENT_KEYWORDS.filter fun kw =>
          ResumeSense.strContains lowerText kw).length : ℚ) }

/-- Models `FeatureExtractor.get_feature_names`, the declared feature order. -/
def featureNames : List String :=
  ["text_length", "word_count", "sentence_count", "keyword_density",
   "action_verbs_count", "weak_verbs_count", "power_verb_ratio",
   "has_numbers", "numbers_count", "percentage_mentions",
   "ats_score", "has_education", "has_experience", "has_skills",
   "has_contact", "has_bullets", "section_count",
   "jd_match_score", "common_keywords",
   "has_email", "has_phone", "achievement_keywords"]

/-- The feature dictionary as an association list in the insertion order of
`extract_features` (Python dicts preserve insertion order). -/
def extractFeaturesList (resume_text : String) (jd_text : String := "") :
    List (String × ℚ) :=
  let f := extractFeatures resume_text jd_text
  [("text_length", f.text_length), ("word_count", f.word_count),
   ("sentence_count", f.sentence_count), ("keyword_density", f.keyword_density),
   ("action_verbs_count", f.action_verbs_count),
   ("weak_verbs_count", f.weak_verbs_count),
   ("power_verb_ratio", f.power_verb_frac),
   ("has_numbers", f.has_numbers), ("numbers_count", f.numbers_count),
   ("percentage_mentions", f.percentage_mentions),
   ("ats_score", f.ats_score), ("has_education", f.has_education),
   ("has_experience", f.has_experience), ("has_skills", f.has_skills),
   ("has_contact", f.has_contact), ("has_bullets", f.has_bullets),
   ("section_count", f.section_count),
   ("jd_match_score", f.jd_match_score), ("common_keywords", f.common_keywords),
   ("has_email", f.has_email), ("has_phone", f.has_phone),
   ("achievement_keywords", f.achievement_keywords)]

end ResumeSense.FeatureExtractor

namespace ResumeSense.ResumeScorer

open ResumeSense.FeatureExtractor

/-- Run-time behaviour of a loaded predictor object, as observed by
`ResumeScorer.score_resume`:
* `probaOk p0 rest`: has `predict_proba`, which returns the row
  `p0 :: rest` (the code uses `proba[1]` when the row has length > 1,
  else `proba[0]`);
* `probaFail`: has `predict_proba` but evaluating it raises;
* `predictOk v`: no `predict_proba`, has `predict`, returning `v`;
* `predictFail`: `predict` raises;
* `noPredict`: exposes neither method. -/
inductive ModelKind where
  | probaOk : ℚ → List ℚ → ModelKind
  | probaFail : ModelKind
  | predictOk : ℚ → ModelKind
  | predictFail : ModelKind
  | noPredict : ModelKind
  deriving Repr, DecidableEq

/-- Models `ResumeScorer._load_model`: if the artifact file is missing the model
is `None`; if unpickling raises, the exception is absorbed and the model
is `None`; otherwise the loaded object is kept. -/
def loadModel (fileExists : Bool) (loaded : Except Unit ModelKind) : Option ModelKind :=
  if fileExists then
    match loaded with
    | .ok m => some m
    | .error _ => none
  else none

/-- Models `ResumeScorer._rule_based_score`, step for step.  Python numeric
truthiness `if features['has_numbers']:` is `≠ 0`. -/
def ruleBasedScore (f : Features) : ℚ :=
  let s0 : ℚ := 0
  let s1 := s0 + f.ats_score * 30
  let s2 := s1 + (f.has_education + f.has_experience + f.has_skills + f.has_contact) / 4 * 20
  let s3 := s2 + f.power_verb_frac * 15
  let s4 := if f.has_numbers ≠ 0 then s3 + min 15 (f.numbers_count * 0.5) else s3
  let s5 := s4 + f.keyword_density * 10
  let s6 := if 0 < f.jd_match_score then s5 + f.jd_match_score * 10 else s5
  min 100 (max 0 s6)

/-- Result dictionary of `ResumeScorer.score_resume`. -/
structure ScoreResult where
  quality_score : ℚ
  features : Features
  model_used : String

/-- Models `ResumeScorer.score_resume`.  Exceptions on the prediction path are
absorbed and replaced by the rule-based score; `model_used` reports
`"ml_model"` whenever a model object is loaded, regardless of which path
produced the score. -/
def scoreResume (model : Option ModelKind) (resume_text : String)
    (jd_text : String := "") : ScoreResult :=
  let features := extractFeatures resume_text jd_text
  let score : ℚ :=
    match model with
    | some (.probaOk p0 rest) =>
      if 0 < rest.length then rest.headD 0 * 100 else p0 * 100
    | some .probaFail => ruleBasedScore features
    | some (.predictOk v) => max 0 (min 100 v)
    | some .predictFail => ruleBasedScore features
    | some .noPredict => ruleBasedScore features
    | none => ruleBasedScore features
  { quality_score := ResumeSense.round2 score
    features := features
    model_used := match model with | some _ => "ml_model" | none => "rule_based" }

end ResumeSense.ResumeScorer

namespace ResumeSense.ResumeInsights

/-- Models `ResumeInsights.PROJECT_KEYWORDS`. -/
def PROJECT_KEYWORDS : List String :=
  ["project", "projects", "capstone", "portfolio", "application", "app",
   "tool", "platform", "system", "product", "prototype", "solution",
   "hackathon", "case study", "research project", "module", "feature"]

/-- Models `ResumeInsights.TECH_TERMS` (all entries are already lowercase, so
`TECH_TOKENS = {t.lower() for t in TECH_TERMS}` is the same collection). -/
def TECH_TERMS : List String :=
  ["python", "java", "javascript", "typescript", "c++", "cpp", "c#",
   "csharp", "go", "golang", "rust", "swift", "kotlin", "scala",
   "ruby", "php", "r", "matlab", "sql", "nosql", "html", "css",
   "react", "angular", "vue", "django", "flask", "spring", "express",
   "node", "nodejs", "fastapi", "nextjs", "nuxt", "laravel", "rails",
   "pandas", "numpy", "scikit-learn", "sklearn", "tensorflow",
   "pytorch", "keras", "matplotlib", "seaborn", "spark", "hadoop",
   "airflow", "dbt",
   "aws", "azure", "gcp", "docker", "kubernetes", "helm", "terraform",
   "ansible", "jenkins", "gitlab", "github", "bitbucket", "ci/cd",
   "mysql", "postgresql", "postgres", "mongodb", "redis", "dynamodb",
   "snowflake", "bigquery", "redshift", "elastic", "elasticsearch"]

/-- Models `ResumeInsights.NOISE_PREFIXES`. -/
def NOISE_WORDS : List String :=
  ["confidence", "achievement", "achievements", "projects", "project",
   "github", "git hub"]

/-- One technology term is detected by `_extract_tech_stack`:
`re.search(r'\bterm\b', text_lower)` for an all-word-character term is a
maximal word-run equality; for a term containing a non-word character the
`elif normalized in text_lower` substring branch subsumes the regex (any
regex match of the escaped literal contains it as a substring).  Only the
emptiness of the returned stack matters to the claims (Python set
iteration order makes the list order unspecified). -/
def techDetected (text_lower : String) : Bool :=
  TECH_TERMS.any fun t =>
    if t.toList.all ResumeSense.wordChar then
      (ResumeSense.wordRuns text_lower.toList).contains t.toList
    else
      ResumeSense.strContains text_lower t

/-- Anchored match of `\d+(\.\d+)?%` (greedy digit runs; a shorter run
cannot help, since the following character would still be a digit). -/
def metricAHere (l : List Char) : Bool :=
  let run := l.takeWhile Char.isDigit
  let rest := l.dropWhile Char.isDigit
  ¬ run.isEmpty &&
    match rest with
    | '%' :: _ => true
    | '.' :: r2 =>
      let run2 := r2.takeWhile Char.isDigit
      let rest2 := r2.dropWhile Char.isDigit
      ¬ run2.isEmpty && (match rest2 with | '%' :: _ => true | _ => false)
    | _ => false

/-- Anchored match of `\d+\+\b`: digits, `+`, then a word character must
follow (`+` is a non-word character, so the trailing `\b` needs a word
character next — end of string does not qualify). -/
def metricCHere (l : List Char) : Bool :=
  let run := l.takeWhile Char.isDigit
  let rest := l.dropWhile Char.isDigit
  ¬ run.isEmpty &&
    match rest with
    | '+' :: r2 => (match r2 with | c :: _ => ResumeSense.wordChar c | [] => false)
    | _ => false

/-- Models `bool(re.search(r'\b\d+(\.\d+)?%|\$\d+|\d+\+\b', entry))` of
`_parse_project_block` (`metrics_present`).  The first alternative carries
the leading `\b`; the other two do not. -/
def metricsSearch : Option Char → List Char → Bool
  | _, [] => false
  | prev, c :: cs =>
    (decide (ResumeSense.ATSChecker.isWordOpt prev ≠ ResumeSense.wordChar c) &&
        metricAHere (c :: cs)) ||
      (c = '$' && (match cs with | d :: _ => d.isDigit | [] => false)) ||
      metricCHere (c :: cs) ||
      metricsSearch (some c) cs

/-- Metric presence on a project entry. -/
def metricsPresent (entry : String) : Bool :=
  metricsSearch none entry.toList

/-- Python `str.rstrip()`. -/
def rstripChars (l : List Char) : List Char :=
  (l.reverse.dropWhile ResumeSense.pySpace).reverse

/-- Models `re.sub(r'\s+', ' ', text)`: every maximal whitespace run becomes one
space. -/
def collapseWs : List Char → List Char
  | [] => []
  | c :: cs =>
    if ResumeSense.pySpace c then
      match cs with
      | d :: _ => if ResumeSense.pySpace d then collapseWs cs else ' ' :: collapseWs cs
      | [] => [' ']
    else c :: collapseWs cs

/-- Python `s.split(' ', 1)`: the first space-delimited token and, when a
space exists, the remainder after it. -/
def firstTokenRemainder (l : List Char) : List Char × Option (List Char) :=
  let tok := l.takeWhile fun c => c ≠ ' '
  match l.dropWhile (fun c => c ≠ ' ') with
  | [] => (tok, none)
  | _ :: r => (tok, some r)

/-- The `while` loop of `ResumeInsights._clean_entry_text`, with explicit
fuel.  Every iteration shortens the string by at least one character, so
`length + 1` fuel is never exhausted.  The `confidence ` branch mirrors the
source even though its guard is subsumed by the first branch
(`'confidence'` is also a noise word). -/
def cleanEntryLoop : ℕ → String → String
  | 0, cleaned => cleaned
  | fuel + 1, cleaned =>
    if cleaned = "" then cleaned
    else
      let lowered := ResumeSense.pyLower cleaned
      let first_token : String := ⟨(firstTokenRemainder lowered.toList).1⟩
      if NOISE_WORDS.contains first_token || TECH_TERMS.contains first_token then
        match (firstTokenRemainder cleaned.toList).2 with
        | some r => cleanEntryLoop fuel (ResumeSense.pyStrip ⟨r⟩)
        | none => cleanEntryLoop fuel ""
      else if strStartsWith lowered "confidence " then
        match (firstTokenRemainder cleaned.toList).2 with
        | some r =>
          match (firstTokenRemainder r).2 with
          | some r2 => cleanEntryLoop fuel ⟨r2⟩
          | none => cleanEntryLoop fuel ""
        | none => cleanEntryLoop fuel ""
      else cleaned

/-- Models `ResumeInsights._clean_entry_text`. -/
def cleanEntryText (text : String) : String :=
  let cleaned := ResumeSense.pyStrip ⟨collapseWs text.toList⟩
  ResumeSense.pyStrip (cleanEntryLoop (cleaned.length + 1) cleaned)

/-- Python `str.isupper` (ASCII): at least one letter and no lowercase
letter. -/
def pyIsUpper (s : String) : Bool :=
  s.toList.any Char.isAlpha && s.toList.all fun c => ¬ ResumeSense.lowerAscii c

/-- Models `ResumeInsights._starts_new_entry`. -/
def startsNewEntry (line : String) : Bool :=
  if line = "" ||
      (match line.toList with
       | c :: d :: _ => (c = '-' || c = '*') && ResumeSense.pySpace d
       | _ => false) then false
  else
    let lower := ResumeSense.pyLower line
    if line.toList.contains '|' || pyIsUpper line then true
    else if (["project", "capstone", "hackathon", "award", "achievement",
        "leadership", "club", "society", "competition"].any fun kw =>
          ResumeSense.strContains lower kw) then true
    else if (ResumeSense.wordRuns line.toList).any (fun r =>
        match r with
        | '2' :: '0' :: a :: b :: [] => a.isDigit && b.isDigit
        | _ => false) then true
    else false

/-- Models `ResumeInsights._is_noise_line`: map characters outside `[a-z0-9 ]` of
the lowercased line to spaces, strip, and test against the noise words. -/
def isNoiseLine (line : String) : Bool :=
  let normalized := ResumeSense.pyStrip
    ⟨(ResumeSense.pyLower line).toList.map fun c =>
      if ResumeSense.lowerAscii c || c.isDigit || c = ' ' then c else ' '⟩
  NOISE_WORDS.contains normalized || normalized = ""

/-- Models `ResumeInsights._is_noise_entry`. -/
def isNoiseEntry (entry_lower : String) : Bool :=
  decide (entry_lower.length < 10) ||
    NOISE_WORDS.any fun p => ResumeSense.strStartsWith entry_lower p

/-- Models `commit_entry` of `_split_block_entries`, acting on the
`(entries, current)` fold state. -/
def commitEntry (st : List String × List String) : List String × List String :=
  let entries := st.1
  let current := st.2
  if current.isEmpty then (entries, [])
  else
    let parts := (current.map ResumeSense.pyStrip).filter fun p => p ≠ ""
    let merged := String.intercalate " " parts
    let normalized := ResumeSense.pyLower merged
    if isNoiseEntry normalized then (entries, [])
    else
      let cleaned_entry := cleanEntryText merged
      if 6 ≤ (ResumeSense.pySplitWs cleaned_entry).length then
        (entries ++ [cleaned_entry], [])
      else (entries, [])

/-- The per-line body of the `for line in lines` loop of
`_split_block_entries`. -/
def splitStep (st : List String × List String) (line : String) :
    List String × List String :=
  let stripped := ResumeSense.pyStrip line
  if stripped = "" then commitEntry st
  else if isNoiseLine stripped then st
  else
    let cleaned_line := ResumeSense.pyStrip
      ⟨stripped.toList.dropWhile fun c => c = '-' || c = '*' || c = ' '⟩
    if cleaned_line = "" then st
    else
      let short_descriptor :=
        decide ((ResumeSense.pySplitWs cleaned_line).length ≤ 4) &&
          ¬ cleaned_line.toList.any (fun c => c = ':' || c = '|')
      if short_descriptor && ¬ st.2.isEmpty then (st.1, st.2 ++ [cleaned_line])
      else if ¬ st.2.isEmpty && startsNewEntry cleaned_line then
        ((commitEntry st).1, [cleaned_line])
      else if st.2.isEmpty then (st.1, [cleaned_line])
      else (st.1, st.2 ++ [cleaned_line])

/-- Models `ResumeInsights._split_block_entries`.  `\r` is replaced by `\n` and
unicode bullet characters by `-` before splitting into (right-stripped)
lines. -/
def splitBlockEntries (block : String) : List String :=
  let cleaned := block.toList.map fun c =>
    if c = '\x0d' then '\n'
    else if c = '•' || c = '‣' || c = '◦' || c = '⁃' then '-'
    else c
  let lines := (ResumeSense.splitChar '\n' cleaned).map
      fun l => (⟨rstripChars l⟩ : String)
  (commitEntry (lines.foldl splitStep ([], []))).1

/-- Regex class `[A-Za-z0-9 ,&()\/\-]` of the title patterns. -/
def titleClassChar (c : Char) : Bool :=
  c.isAlphanum || c = ' ' || c = ',' || c = '&' || c = '(' || c = ')' ||
    c = '/' || c = '-'

/-- Alternation of `(?:project|application|platform|system)`. -/
def TITLE_KEYWORDS : List String :=
  ["project", "application", "platform", "system"]

/-- Backtracking over the second `\s*`: drop `j` whitespace characters
(greedy first) and take the maximal `[A-Za-z0-9 ,&()\/\-]+` group; a
shorter whitespace consumption can succeed only when the remaining
whitespace character is a space (which the class accepts). -/
def groupTry : ℕ → List Char → Option (List Char)
  | j, r =>
    let r4 := r.drop j
    let g := r4.takeWhile titleClassChar
    if ¬ g.isEmpty then some g
    else match j with
      | 0 => none
      | j + 1 => groupTry j r

/-- Attempt the title pattern
`(?:project|application|platform|system)\s*[:\-]\s*([A-Za-z0-9 ,&()\/\-]+)`
(IGNORECASE) at the head of `l`; returns the captured group.  The first
`\s*` admits only the full-run consumption, because backtracking would
leave a whitespace character where `[:\-]` is required. -/
def titleHere (l : List Char) : Option (List Char) :=
  TITLE_KEYWORDS.findSome? fun k =>
    if k.toList.isPrefixOf (l.map Char.toLower) then
      let rest := l.drop k.length
      let rest2 := rest.dropWhile ResumeSense.pySpace
      match rest2 with
      | c :: r3 =>
        if c = ':' || c = '-' then
          groupTry (r3.takeWhile ResumeSense.pySpace).length r3
        else none
      | [] => none
    else none

/-- Models `re.search` of the title pattern: leftmost matching position. -/
def titleSearch : List Char → Option (List Char)
  | [] => none
  | c :: cs =>
    match titleHere (c :: cs) with
    | some g => some g
    | none => titleSearch cs

/-- Python `s.split(sep)[0]` for a (possibly multi-character) separator:
the text before its first occurrence. -/
def takeBefore (sep : List Char) : List Char → List Char
  | [] => []
  | c :: cs =>
    if sep.isPrefixOf (c :: cs) then []
    else c :: takeBefore sep cs

/-- Models `ResumeInsights._trim_title`. -/
def trimTitle (text : String) : String :=
  let cleaned := ResumeSense.pyStrip ⟨text.toList.filter titleClassChar⟩
  if cleaned = "" then "Highlighted Project"
  else String.intercalate " " ((ResumeSense.pySplitWs cleaned).take 10)

/-- Models `ResumeInsights._infer_project_title`. -/
def inferProjectTitle (sentence : String) : String :=
  match titleSearch sentence.toList with
  | some g =>
    trimTitle (cleanEntryText (ResumeSense.pyStrip ⟨g⟩))
  | none =>
    let clause := takeBefore [','] sentence.toList
    let clause := takeBefore [' ', '-', ' '] clause
    let clause := takeBefore ['.', ' '] clause
    trimTitle (cleanEntryText ⟨clause⟩)

/-- The confidence computed for one entry in
`ResumeInsights._parse_project_block`: start at 0.4, +0.2 when a known
technology is detected, +0.2 when a metric is present, +0.2 scaled by
entry length over 300 characters, capped at 0.99 and rounded to two
decimals before being stored. -/
def entryConfidence (entry : String) : ℚ :=
  let lower := ResumeSense.pyLower entry
  let tech := techDetected lower
  let metrics := metricsPresent entry
  let length_factor : ℚ := min ((entry.length : ℚ) / 300) 1
  let c0 : ℚ := 0.4
  let c1 := if tech then c0 + 0.2 else c0
  let c2 := if metrics then c1 + 0.2 else c1
  let c3 := c2 + 0.2 * length_factor
  ResumeSense.round2 (min c3 0.99)

/-- The confidences of the project entries produced by
`ResumeInsights._parse_project_block` from one section block (the titles,
summaries and tech-stack lists of the produced dictionaries are not needed
by the claims; the stack's list order is unspecified Python set order). -/
def parseProjectBlockConfs (block : String) : List ℚ :=
  (splitBlockEntries block).map entryConfidence

/-- One iteration of the sentence-level fallback loop of
`ResumeInsights._extract_projects` (lines 119–147): given the set of
already-seen lowercased titles, either reject the sentence or produce the
`(title, confidence)` of the appended project. -/
def fallbackProjectOfSentence (seen_titles : List String) (sentence : String) :
    Option (String × ℚ) :=
  let lower := ResumeSense.pyLower sentence
  let indicator_hits := (PROJECT_KEYWORDS.filter fun kw =>
      ResumeSense.strContains lower kw).length
  let has_delimiters := ResumeSense.strContains sentence "|" ||
      ResumeSense.strContains sentence " - " || ResumeSense.strContains sentence ":"
  if indicator_hits = 0 || ¬ has_delimiters then none
  else if ¬ techDetected lower then none
  else
    let title := inferProjectTitle sentence
    if seen_titles.contains (ResumeSense.pyLower title) then none
    else
      let cleaned_sentence := cleanEntryText (ResumeSense.pyStrip sentence)
      if (ResumeSense.pySplitWs cleaned_sentence).length < 6 then none
      else
        let confidence : ℚ :=
          min 1 (0.4 + min ((cleaned_sentence.length : ℚ) / 300) 0.3)
        some (title, ResumeSense.round2 confidence)

end ResumeSense.ResumeInsights

namespace ResumeSense

/-! ## Specification-side definitions

The following definitions are written from the specification's words (not
from the code); the claim theorems compare them with the embedded code. -/

/-- Spec §4.3: `scientificScore = |domainResume ∩ domainJD| / |domainJD|`
(0 if the denominator is 0) × 100. -/
def specScientificScore (resume_text jd_text : String) : ℚ :=
  let jdDomain := JDMatcher.scientificKeywords jd_text
  if jdDomain.card = 0 then 0
  else ((JDMatcher.scientificKeywords resume_text ∩ jdDomain).card : ℚ) /
    (jdDomain.card : ℚ) * 100

/-- Spec §4.3: `generalScore`, the analogous ratio over general keyword
sets. -/
def specGeneralScore (resume_text jd_text : String) : ℚ :=
  let jdGeneral := JDMatcher.generalKeywords jd_text
  if jdGeneral.card = 0 then 0
  else ((JDMatcher.generalKeywords resume_text ∩ jdGeneral).card : ℚ) /
    (jdGeneral.card : ℚ) * 100

/-- Spec §4.3 / claim C1: `matchScore = 0.7·scientificScore +
0.3·generalScore`, clamped to [0, 100] (both-denominator-zero gives 0 by
the component definitions). -/
def specMatchScore (resume_text jd_text : String) : ℚ :=
  min 100 (max 0
    (0.7 * specScientificScore resume_text jd_text +
      0.3 * specGeneralScore resume_text jd_text))

/-- Claim C2's scoring formula, written from the spec's words: sections
contribute `(present/total)×40`; contact contributes 30 when complete, 15
when exactly one of email/phone is present, else 0; formatting starts at 30
and subtracts 10/10/5/5 for the four risk flags, floored at 0; the total is
rounded to 2 decimals and clamped to [0, 100]. -/
def specAtsScore (s : ATSChecker.SectionChecks) (c : ATSChecker.ContactCheck)
    (f : ATSChecker.FormattingChecks) : ℚ :=
  let sectionComponent : ℚ :=
    (((ATSChecker.sectionValues s).countP (fun b => b) : ℕ) : ℚ) /
      (((ATSChecker.sectionValues s).length : ℕ) : ℚ) * 40
  let contactComponent : ℚ :=
    if c.complete then 30
    else if (c.has_email && !c.has_phone) || (!c.has_email && c.has_phone) then 15
    else 0
  let formattingComponent : ℚ :=
    max 0 (30 - (if f.has_tables then 10 else 0) -
      (if f.excessive_formatting then 10 else 0) -
      (if f.has_headers_footers then 5 else 0) -
      (if ¬ f.has_bullets then 5 else 0))
  min 100 (max 0 (round2 (sectionComponent + contactComponent + formattingComponent)))

/-- Claim C3's rule-based formula, written from the spec's words, with the
JD component gated on whether a job description was supplied. -/
def specRuleScore (f : FeatureExtractor.Features) (jd_supplied : Prop)
    [Decidable jd_supplied] : ℚ :=
  min 100 (max 0
    (f.ats_score * 30 +
      (f.has_education + f.has_experience + f.has_skills + f.has_contact) / 4 * 20 +
      f.power_verb_frac * 15 +
      (if f.has_numbers ≠ 0 then min 15 (f.numbers_count * 0.5) else 0) +
      f.keyword_density * 10 +
      (if jd_supplied then f.jd_match_score * 10 else 0)))

/-- Claim C8's formatting heuristic, written from the spec's words: more
than 10 lines, and some line among the first three (after stripping)
appears among the last three. -/
def specHeadersFooters (text : String) : Bool :=
  let lines := pySplitOn '\n' text
  decide (10 < lines.length) &&
    (lines.take 3).any fun line =>
      (lines.drop (lines.length - 3)).contains (pyStrip line)

/-- Claim C9's section-path confidence (amended by the rounding the code
applies when storing it): 0.4, +0.2 for a known technology, +0.2 for a
metric, +0.2 scaled by entry length up to 300 characters, capped at 0.99,
rounded to 2 decimals. -/
def specSectionConfidence (entry : String) : ℚ :=
  round2 (min
    (0.4 + (if ResumeInsights.techDetected (pyLower entry) then 0.2 else 0) +
      (if ResumeInsights.metricsPresent entry then 0.2 else 0) +
      0.2 * min ((entry.length : ℚ) / 300) 1)
    0.99)

/-- Claim C9's fallback-path confidence as the code computes it (amended):
`min(1, 0.4 + min(cleanedLength/300, 0.3))`, rounded to 2 decimals. -/
def specFallbackConfidence (sentence : String) : ℚ :=
  round2 (min 1 (0.4 +
    min (((ResumeInsights.cleanEntryText (pyStrip sentence)).length : ℚ) / 300) 0.3))

/-! ## Helper lemmas -/

theorem round2_zero : round2 0 = 0 := by
  norm_num [round2]

theorem round2_nonneg {q : ℚ} (h : 0 ≤ q) : 0 ≤ round2 q := by
  have hn : (0 : ℤ) ≤ ⌊q * 100⌋ := Int.floor_nonneg.mpr (by positivity)
  have hn' : (0 : ℚ) ≤ (⌊q * 100⌋ : ℚ) := by exact_mod_cast hn
  unfold round2
  split_ifs <;>
    first
      | exact div_nonneg hn' (by norm_num)
      | exact div_nonneg (by linarith) (by norm_num)

theorem round2_le_100 {q : ℚ} (h : q ≤ 100) : round2 q ≤ 100 := by
  have h1 : ((⌊q * 100⌋ : ℤ) : ℚ) ≤ q * 100 := Int.floor_le _
  have h2 : q * 100 ≤ 10000 := by linarith
  unfold round2
  split_ifs with c1 c2 c3
  · rw [div_le_iff₀ (by norm_num : (0:ℚ) < 100)]; linarith
  · have hq : ((⌊q * 100⌋ : ℤ) : ℚ) < 10000 := by
      simp only [not_lt] at c1
      linarith
    have hz : ⌊q * 100⌋ < 10000 := by exact_mod_cast hq
    have hz' : ((⌊q * 100⌋ : ℤ) : ℚ) ≤ 9999 := by
      have : ⌊q * 100⌋ ≤ 9999 := by omega
      exact_mod_cast this
    rw [div_le_iff₀ (by norm_num : (0:ℚ) < 100)]; linarith
  · rw [div_le_iff₀ (by norm_num : (0:ℚ) < 100)]; linarith
  · have hr : q * 100 - ((⌊q * 100⌋ : ℤ) : ℚ) = 1/2 := by
      simp only [not_lt] at c1 c2
      linarith
    have hq : ((⌊q * 100⌋ : ℤ) : ℚ) < 10000 := by linarith
    have hz : ⌊q * 100⌋ < 10000 := by exact_mod_cast hq
    have hz' : ((⌊q * 100⌋ : ℤ) : ℚ) ≤ 9999 := by
      have : ⌊q * 100⌋ ≤ 9999 := by omega
      exact_mod_cast this
    rw [div_le_iff₀ (by norm_num : (0:ℚ) < 100)]; linarith

theorem matchScore_nonneg (resume_text jd_text : String) :
    0 ≤ (JDMatcher.computeMatchScore resume_text jd_text).match_score := by
  simp only [JDMatcher.computeMatchScore]
  exact round2_nonneg (le_min (by norm_num) (le_max_left 0 _))

theorem matchScore_le_100 (resume_text jd_text : String) :
    (JDMatcher.computeMatchScore resume_text jd_text).match_score ≤ 100 := by
  simp only [JDMatcher.computeMatchScore]
  exact round2_le_100 (min_le_left _ _)

theorem extractFeatures_jd_empty (resume_text : String) :
    (FeatureExtractor.extractFeatures resume_text "").jd_match_score = 0 ∧
      (FeatureExtractor.extractFeatures resume_text "").common_keywords = 0 := by
  constructor <;> simp [FeatureExtractor.extractFeatures]

theorem extractFeatures_jd_match_score (resume_text jd_text : String) :
    (FeatureExtractor.extractFeatures resume_text jd_text).jd_match_score =
      if jd_text = "" then 0
      else (JDMatcher.computeMatchScore resume_text jd_text).match_score / 100 := by
  simp only [FeatureExtractor.extractFeatures]
  split <;> rfl

theorem extractFeatures_jd_nonneg (resume_text jd_text : String) :
    0 ≤ (FeatureExtractor.extractFeatures resume_text jd_text).jd_match_score := by
  rw [extractFeatures_jd_match_score]
  split
  · exact le_refl 0
  · exact div_nonneg (matchScore_nonneg _ _) (by norm_num)

end ResumeSense

namespace ResumeSense

theorem clamp_eq_self {x : ℚ} (h0 : 0 ≤ x) (h1 : x ≤ 100) :
    min 100 (max 0 x) = x := by
  rw [max_eq_right h0, min_eq_right h1]

theorem roundclamp_eq_clampround {x : ℚ} (h0 : 0 ≤ x) (h1 : x ≤ 100) :
    round2 (min 100 (max 0 x)) = min 100 (max 0 (round2 x)) := by
  rw [clamp_eq_self h0 h1, clamp_eq_self (round2_nonneg h0) (round2_le_100 h1)]

/-- C1 (amended): for every pair of resume and job-description texts,
`compute_match_score` returns `match_score` equal to
`0.7·scientificScore + 0.3·generalScore` clamped to [0, 100] **and rounded
to 2 decimals**, where the component scores are the spec's ratio formulas
(0 on a zero denominator); when both denominators are 0 the result is 0. -/
theorem computeMatchScore_eq_spec_formula (resume_text jd_text : String) :
    (JDMatcher.computeMatchScore resume_text jd_text).match_score =
      round2 (specMatchScore resume_text jd_text) := by
  simp only [JDMatcher.computeMatchScore, specMatchScore, specScientificScore,
    specGeneralScore]
  congr 2
  by_cases h1 : (JDMatcher.scientificKeywords jd_text).card = 0 <;>
    by_cases h2 : (JDMatcher.generalKeywords jd_text).card = 0 <;>
    simp [h1, h2, Nat.pos_of_ne_zero] <;> ring_nf

/-- C1, counterexample to the claim as stated: the returned `match_score`
is rounded to 2 decimals, so it differs from the exact clamped weighted
score (here 100/3 vs 33.33). -/
theorem computeMatchScore_rounding_cex :
    (JDMatcher.computeMatchScore "XXAAA" "XXAAA XXBBB XXCCC").match_score ≠
      specMatchScore "XXAAA" "XXAAA XXBBB XXCCC" := by
  have h1 : (JDMatcher.scientificKeywords "XXAAA XXBBB XXCCC").card = 3 := by decide
  have h2 : (JDMatcher.generalKeywords "XXAAA XXBBB XXCCC").card = 3 := by decide
  have h3 : (JDMatcher.scientificKeywords "XXAAA" ∩
      JDMatcher.scientificKeywords "XXAAA XXBBB XXCCC").card = 1 := by decide
  have h4 : (JDMatcher.generalKeywords "XXAAA" ∩
      JDMatcher.generalKeywords "XXAAA XXBBB XXCCC").card = 1 := by decide
  simp only [JDMatcher.computeMatchScore, specMatchScore, specScientificScore,
    specGeneralScore, h1, h2, h3, h4]
  norm_num [round2]

/-- C6 (amended): `match_score` always lies in [0, 100], and it is 0
whenever the job description yields zero domain and zero general keywords
(the converse direction of the claimed "exactly when" fails: a JD with
keywords that the resume entirely misses also scores 0). -/
theorem matchScore_bounds_and_zero (resume_text jd_text : String) :
    (0 ≤ (JDMatcher.computeMatchScore resume_text jd_text).match_score ∧
      (JDMatcher.computeMatchScore resume_text jd_text).match_score ≤ 100) ∧
    ((JDMatcher.scientificKeywords jd_text).card = 0 →
      (JDMatcher.generalKeywords jd_text).card = 0 →
      (JDMatcher.computeMatchScore resume_text jd_text).match_score = 0) := by
  refine ⟨⟨matchScore_nonneg _ _, matchScore_le_100 _ _⟩, fun h1 h2 => ?_⟩
  simp only [JDMatcher.computeMatchScore]
  rw [if_pos ⟨h1, h2⟩]
  norm_num [round2_zero]

theorem matchScore_bounds_and_zero_witness :
    (JDMatcher.computeMatchScore "" "").match_score = 0 :=
  (matchScore_bounds_and_zero "" "").2 (by decide) (by decide)

/-- C6, counterexample to "`match_score = 0` exactly when the JD yields
zero domain and zero general keywords": for resume `""` and JD
`"developer"` the score is 0 although the JD yields the domain keyword
`"r"` and the general keyword `"developer"`. -/
theorem matchScore_zero_iff_cex :
    (JDMatcher.computeMatchScore "" "developer").match_score = 0 ∧
      ¬ ((JDMatcher.scientificKeywords "developer").card = 0 ∧
        (JDMatcher.generalKeywords "developer").card = 0) := by
  constructor
  · have h1 : (JDMatcher.scientificKeywords "developer").card = 1 := by decide
    have h2 : (JDMatcher.generalKeywords "developer").card = 1 := by decide
    have h3 : (JDMatcher.scientificKeywords "" ∩
        JDMatcher.scientificKeywords "developer").card = 0 := by decide
    have h4 : (JDMatcher.generalKeywords "" ∩
        JDMatcher.generalKeywords "developer").card = 0 := by decide
    simp only [JDMatcher.computeMatchScore, h1, h2, h3, h4]
    norm_num [round2]
  · decide

end ResumeSense

namespace ResumeSense

/-- C2: for every resume text, `check_compliance` returns `ats_score`
computed exactly by the spec's formula: `(present sections / 5)×40`, plus
30/15/0 for contact, plus a formatting component starting at 30 with the
four deductions floored at 0, the total rounded to 2 decimals and clamped
to [0, 100]. -/
theorem calculateAtsScore_eq (s : ATSChecker.SectionChecks)
    (c : ATSChecker.ContactCheck) (f : ATSChecker.FormattingChecks) :
    ATSChecker.calculateAtsScore s c f =
      round2 (min 100 (max 0
        ((((ATSChecker.sectionValues s).countP (fun b => b) : ℕ) : ℚ) /
            (((ATSChecker.sectionValues s).length : ℕ) : ℚ) * 40 +
          (if c.complete then (30 : ℚ) else if c.has_email || c.has_phone then 15 else 0) +
          max 0 (30 - (if f.has_tables then (10 : ℚ) else 0) -
            (if f.excessive_formatting then 10 else 0) -
            (if f.has_headers_footers then 5 else 0) -
            (if ¬ f.has_bullets then 5 else 0))))) := by
  obtain ⟨ht, hx, hh, hb⟩ := f
  simp only [ATSChecker.calculateAtsScore]
  cases ht <;> cases hx <;> cases hh <;> cases hb <;> simp

theorem checkCompliance_ats_score_eq_spec (text : String) :
    (ATSChecker.checkCompliance text).ats_score =
      specAtsScore (ATSChecker.checkSections (pyLower text))
        (ATSChecker.checkContactInfo text)
        (ATSChecker.checkFormatting text) := by
  show ATSChecker.calculateAtsScore _ _ _ = _
  rw [calculateAtsScore_eq]
  simp only [specAtsScore]
  have hcomp : (ATSChecker.checkContactInfo text).complete =
      ((ATSChecker.checkContactInfo text).has_email &&
        (ATSChecker.checkContactInfo text).has_phone) := rfl
  generalize ATSChecker.checkSections (pyLower text) = s
  generalize ATSChecker.checkContactInfo text = c at hcomp
  generalize ATSChecker.checkFormatting text = f
  have hCeq : (if c.complete then (30 : ℚ)
        else if (c.has_email && !c.has_phone) || (!c.has_email && c.has_phone) then 15
        else 0) =
      (if c.complete then (30 : ℚ) else if c.has_email || c.has_phone then 15 else 0) := by
    rw [hcomp]
    cases hce : c.has_email <;> cases hcp : c.has_phone <;> simp
  rw [hCeq]
  have hS0 : (0 : ℚ) ≤
      (((ATSChecker.sectionValues s).countP (fun b => b) : ℕ) : ℚ) /
        (((ATSChecker.sectionValues s).length : ℕ) : ℚ) * 40 := by positivity
  have hS40 : (((ATSChecker.sectionValues s).countP (fun b => b) : ℕ) : ℚ) /
        (((ATSChecker.sectionValues s).length : ℕ) : ℚ) * 40 ≤ 40 := by
    have h := List.countP_le_length (p := fun b => b) (l := ATSChecker.sectionValues s)
    have h5 : (ATSChecker.sectionValues s).length = 5 := rfl
    have h' : (((ATSChecker.sectionValues s).countP (fun b => b) : ℕ) : ℚ) ≤ 5 := by
      rw [h5] at h
      exact_mod_cast h
    rw [h5]
    push_cast
    linarith
  have hC : (0 : ℚ) ≤
        (if c.complete then (30 : ℚ) else if c.has_email || c.has_phone then 15 else 0) ∧
      (if c.complete then (30 : ℚ) else if c.has_email || c.has_phone then 15 else 0) ≤
        30 := by
    constructor <;> split_ifs <;> norm_num
  have hF : (0 : ℚ) ≤
        max 0 (30 - (if f.has_tables then (10 : ℚ) else 0) -
          (if f.excessive_formatting then 10 else 0) -
          (if f.has_headers_footers then 5 else 0) -
          (if ¬ f.has_bullets then 5 else 0)) ∧
      max 0 (30 - (if f.has_tables then (10 : ℚ) else 0) -
          (if f.excessive_formatting then 10 else 0) -
          (if f.has_headers_footers then 5 else 0) -
          (if ¬ f.has_bullets then 5 else 0)) ≤ 30 := by
    constructor
    · exact le_max_left 0 _
    · apply max_le (by norm_num)
      split_ifs <;> norm_num
  exact roundclamp_eq_clampround (by linarith [hC.1, hF.1]) (by linarith [hC.2, hF.2])

end ResumeSense

namespace ResumeSense

open ResumeSense.FeatureExtractor ResumeSense.ResumeScorer

/-- C3: the rule-based quality score equals the spec's weighted formula
(ATS×30, section completeness ×20, power verbs ×15, gated numeric
component, keyword density ×10, and the JD component contributing only
when a job description was supplied), clamped to [0, 100]; and the claim's
particular vector (perfect ATS, all section flags, perfect verb ratio, no
numbers, no JD, a keyword density in [0, 1]) yields
`30 + 20 + 15 + 0 + keyword_density·10`. -/
theorem ruleBasedScore_spec :
    (∀ resume_text jd_text : String,
      ruleBasedScore (extractFeatures resume_text jd_text) =
        specRuleScore (extractFeatures resume_text jd_text) (jd_text ≠ "")) ∧
    (∀ f : Features, f.ats_score = 1 → f.has_education = 1 → f.has_experience = 1 →
      f.has_skills = 1 → f.has_contact = 1 → f.power_verb_frac = 1 →
      f.has_numbers = 0 → f.jd_match_score = 0 →
      0 ≤ f.keyword_density → f.keyword_density ≤ 1 →
      ruleBasedScore f = 30 + 20 + 15 + 0 + f.keyword_density * 10) := by
  constructor
  · intro resume_text jd_text
    simp only [ruleBasedScore, specRuleScore]
    by_cases hjd : jd_text = ""
    · have h0 : (extractFeatures resume_text jd_text).jd_match_score = 0 := by
        rw [extractFeatures_jd_match_score, if_pos hjd]
      rw [h0]
      split_ifs <;> ring_nf
    · have hv : 0 ≤ (extractFeatures resume_text jd_text).jd_match_score :=
        extractFeatures_jd_nonneg resume_text jd_text
      rw [if_pos hjd]
      rcases hv.eq_or_lt with h | h
      · rw [if_neg (by rw [← h]; exact lt_irrefl 0), ← h]
        split_ifs <;> ring_nf
      · rw [if_pos h]
        split_ifs <;> ring_nf
  · intro f h1 h2 h3 h4 h5 h6 h7 h8 h9 h10
    simp only [ruleBasedScore, h1, h2, h3, h4, h5, h6, h7, h8]
    norm_num
    rw [clamp_eq_self (by linarith) (by linarith)]

/-- C3 witness: a concrete feature vector with the claim's values and
keyword density 1/2 scores 30 + 20 + 15 + 0 + 5 = 70. -/
theorem ruleBasedScore_spec_witness :
    ResumeScorer.ruleBasedScore
      { text_length := 0, word_count := 0, sentence_count := 0,
        keyword_density := 1/2, action_verbs_count := 0, weak_verbs_count := 0,
        power_verb_frac := 1, has_numbers := 0, numbers_count := 0,
        percentage_mentions := 0, ats_score := 1, has_education := 1,
        has_experience := 1, has_skills := 1, has_contact := 1, has_bullets := 0,
        section_count := 0, jd_match_score := 0, common_keywords := 0,
        has_email := 0, has_phone := 0, achievement_keywords := 0 } = 70 := by
  have h := ruleBasedScore_spec.2
    { text_length := 0, word_count := 0, sentence_count := 0,
      keyword_density := 1/2, action_verbs_count := 0, weak_verbs_count := 0,
      power_verb_frac := 1, has_numbers := 0, numbers_count := 0,
      percentage_mentions := 0, ats_score := 1, has_education := 1,
      has_experience := 1, has_skills := 1, has_contact := 1, has_bullets := 0,
      section_count := 0, jd_match_score := 0, common_keywords := 0,
      has_email := 0, has_phone := 0, achievement_keywords := 0 }
    rfl rfl rfl rfl rfl rfl rfl rfl (by norm_num) (by norm_num)
  rw [h]
  norm_num

/-- C4: `score_resume` is total (the embedding is a Lean function, and
every failure of the prediction path is absorbed); with no model loaded,
`model_used` is `"rule_based"` and the returned quality score is the
(rounded) rule-based formula output; when the artifact is missing or
unpickling fails, no model is loaded; and every prediction-time failure
(raising `predict_proba`, raising `predict`, or neither method existing)
returns exactly the score of the rule-based path. -/
theorem scoreResume_fallback_spec (resume_text jd_text : String) :
    (scoreResume none resume_text jd_text).model_used = "rule_based" ∧
    (scoreResume none resume_text jd_text).quality_score =
      round2 (ruleBasedScore (extractFeatures resume_text jd_text)) ∧
    (scoreResume (some .probaFail) resume_text jd_text).quality_score =
      (scoreResume none resume_text jd_text).quality_score ∧
    (scoreResume (some .predictFail) resume_text jd_text).quality_score =
      (scoreResume none resume_text jd_text).quality_score ∧
    (scoreResume (some .noPredict) resume_text jd_text).quality_score =
      (scoreResume none resume_text jd_text).quality_score ∧
    (∀ loaded, loadModel false loaded = none) ∧
    loadModel true (Except.error ()) = none :=
  ⟨rfl, rfl, rfl, rfl, rfl, fun _ => rfl, rfl⟩

/-- C10: when a model object is loaded but its prediction raises (on
either the `predict_proba` or the `predict` path), the returned score is
the rule-based formula output while `model_used` still reports
`"ml_model"`: the field reflects only that a model object is loaded. -/
theorem scoreResume_model_used_reports_loaded_model (resume_text jd_text : String) :
    (scoreResume (some .probaFail) resume_text jd_text).quality_score =
      round2 (ruleBasedScore (extractFeatures resume_text jd_text)) ∧
    (scoreResume (some .probaFail) resume_text jd_text).model_used = "ml_model" ∧
    (scoreResume (some .predictFail) resume_text jd_text).quality_score =
      round2 (ruleBasedScore (extractFeatures resume_text jd_text)) ∧
    (scoreResume (some .predictFail) resume_text jd_text).model_used = "ml_model" :=
  ⟨rfl, rfl, rfl, rfl⟩

/-- C5: `extract_features` returns exactly the 22 named features in the
fixed order declared by `get_feature_names`, and with an empty job
description the JD-derived features `jd_match_score` and
`common_keywords` are exactly 0. -/
theorem extractFeatures_names_and_jd_defaults (resume_text jd_text : String) :
    (extractFeaturesList resume_text jd_text).map Prod.fst = featureNames ∧
    featureNames.length = 22 ∧
    (jd_text = "" →
      (extractFeatures resume_text jd_text).jd_match_score = 0 ∧
      (extractFeatures resume_text jd_text).common_keywords = 0) := by
  refine ⟨rfl, rfl, fun h => ?_⟩
  subst h
  exact extractFeatures_jd_empty resume_text

/-- C5 witness: at a concrete resume text and the empty job description,
the JD-derived features are 0. -/
theorem extractFeatures_names_and_jd_defaults_witness :
    (FeatureExtractor.extractFeatures "Email: a@b.com" "").jd_match_score = 0 ∧
      (FeatureExtractor.extractFeatures "Email: a@b.com" "").common_keywords = 0 :=
  (extractFeatures_names_and_jd_defaults "Email: a@b.com" "").2.2 rfl

end ResumeSense

namespace ResumeSense

/-- C7 (amended): general keyword extraction excludes every member of the
domain taxonomy, so general keywords never collide with taxonomy-derived
domain keywords.  (Full disjointness of the two sets fails: acronym-,
technology- and compound-derived scientific keywords can also appear as
general tokens — see the counterexample.) -/
theorem generalKeywords_taxonomy_excluded (text kw : String)
    (h : kw ∈ JDMatcher.generalKeywords text) :
    kw ∉ JDMatcher.SCIENTIFIC_DOMAINS := by
  simp only [JDMatcher.generalKeywords, List.mem_toFinset, List.mem_filter,
    Bool.and_eq_true, Bool.not_eq_true'] at h
  intro hmem
  have hc : JDMatcher.SCIENTIFIC_DOMAINS.contains kw = true :=
    List.elem_iff.mpr hmem
  rw [h.2.2] at hc
  exact Bool.false_ne_true hc

theorem generalKeywords_taxonomy_excluded_witness :
    "developer" ∉ JDMatcher.SCIENTIFIC_DOMAINS :=
  generalKeywords_taxonomy_excluded "hired developer" "developer" (by decide)

/-- C7, counterexample to the claimed full disjointness: in the text
`"ABC"` the acronym extractor produces `"abc"`, which is also a general
keyword (it is not a stop word, longer than 2, and not in the taxonomy). -/
theorem keyword_sets_disjoint_cex :
    "abc" ∈ JDMatcher.scientificKeywords "ABC" ∧
      "abc" ∈ JDMatcher.generalKeywords "ABC" ∧
      ¬ Disjoint (JDMatcher.scientificKeywords "ABC")
        (JDMatcher.generalKeywords "ABC") :=
  by
  refine ⟨by decide, by decide, fun hdisj => ?_⟩
  exact absurd (by decide : "abc" ∈ JDMatcher.generalKeywords "ABC")
    (Finset.disjoint_left.mp hdisj
      (by decide : "abc" ∈ JDMatcher.scientificKeywords "ABC"))

/-- C8: the claim describes the intended first-3/last-3 overlap heuristic,
but the code also tests each (stripped) header line for membership in the
header lines themselves, which is self-satisfying whenever a header line
carries no surrounding whitespace.  On an 11-line text with pairwise
distinct lines the code sets the flag while the specified heuristic is
false. -/
theorem headersFooters_selfmatch_bug :
    (ATSChecker.checkFormatting
        "a\nb\nc\nd\ne\nf\ng\nh\ni\nj\nk").has_headers_footers = true ∧
      specHeadersFooters "a\nb\nc\nd\ne\nf\ng\nh\ni\nj\nk" = false := by
  constructor <;> decide

end ResumeSense

namespace ResumeSense

/-- C9: project confidences.  Section-block path: every entry parsed from
a block gets `round2 (min (0.4 + tech + metric + 0.2·min(len/300, 1))
0.99)`.  Fallback path: every accepted sentence gets
`round2 (min 1 (0.4 + min(cleanedLen/300, 0.3)))`. -/
theorem projectConfidence_spec :
    (∀ block : String,
      ResumeInsights.parseProjectBlockConfs block =
        (ResumeInsights.splitBlockEntries block).map specSectionConfidence) ∧
    (∀ (seen_titles : List String) (sentence title : String) (c : ℚ),
      ResumeInsights.fallbackProjectOfSentence seen_titles sentence =
          some (title, c) →
      c = specFallbackConfidence sentence) := by
  constructor
  · intro block
    have hfun : ResumeInsights.entryConfidence = specSectionConfidence := by
      funext entry
      simp only [ResumeInsights.entryConfidence, specSectionConfidence]
      split_ifs <;> ring_nf
    simp only [ResumeInsights.parseProjectBlockConfs, hfun]
  · intro seen_titles sentence title c h
    simp only [ResumeInsights.fallbackProjectOfSentence] at h
    split_ifs at h
    simp only [Option.some.injEq, Prod.mk.injEq] at h
    simp only [specFallbackConfidence]
    exact h.2.symm

/-- The concrete sentence used to instantiate the fallback path of C9. -/
def fallbackSentenceExample : String :=
  "Built an inventory platform: used python and flask to track supplies for the campus store | deployed to heroku cloud servers for the whole term"

set_option maxRecDepth 100000 in
/-- Evaluation of the fallback loop body on the example sentence: it is
accepted and stored with confidence 0.7 (the cleaned sentence has 143
characters, so `min(143/300, 0.3) = 0.3`). -/
theorem fallbackSentenceExample_eval :
    ResumeInsights.fallbackProjectOfSentence [] fallbackSentenceExample =
      some ("used python and flask to track supplies for the campus", 7/10) := by
  have hlen : (ResumeInsights.cleanEntryText (pyStrip fallbackSentenceExample)).length
      = 143 := by decide
  have htitle : ResumeInsights.inferProjectTitle fallbackSentenceExample =
      "used python and flask to track supplies for the campus" := by decide
  simp only [ResumeInsights.fallbackProjectOfSentence]
  rw [if_neg (by decide), if_neg (by decide), if_neg (by decide),
    if_neg (by decide)]
  rw [htitle, hlen]
  norm_num [round2]

/-- C9 witness: applying the fallback part of the theorem at the example
sentence; the spec-side confidence evaluates to the stored 0.7. -/
theorem projectConfidence_spec_witness :
    (7 : ℚ)/10 = specFallbackConfidence fallbackSentenceExample :=
  projectConfidence_spec.2 [] fallbackSentenceExample
    "used python and flask to track supplies for the campus" (7/10)
    fallbackSentenceExample_eval

set_option maxRecDepth 100000 in
/-- C9, counterexample to the claimed fallback formula
`0.4 + 0.3·min(len/300, 1)`: the code stores 0.7 for the example sentence
(length 143), while the claimed formula gives 0.543. -/
theorem fallbackConfidence_formula_cex :
    ResumeInsights.fallbackProjectOfSentence [] fallbackSentenceExample =
      some ("used python and flask to track supplies for the campus", 7/10) ∧
    (0.4 : ℚ) + 0.3 *
        min (((ResumeInsights.cleanEntryText
          (pyStrip fallbackSentenceExample)).length : ℚ) / 300) 1 ≠ 7/10 := by
  constructor
  · have hlen : (ResumeInsights.cleanEntryText
        (pyStrip fallbackSentenceExample)).length = 143 := by decide
    have htitle : ResumeInsights.inferProjectTitle fallbackSentenceExample =
        "used python and flask to track supplies for the campus" := by decide
    simp only [ResumeInsights.fallbackProjectOfSentence]
    rw [if_neg (by decide), if_neg (by decide), if_neg (by decide),
      if_neg (by decide)]
    rw [htitle, hlen]
    norm_num [round2]
  · have hlen : (ResumeInsights.cleanEntryText
        (pyStrip fallbackSentenceExample)).length = 143 := by decide
    rw [hlen]
    norm_num

end ResumeSense
